import Mathlib

/-!
# Verification of the vpx-js Plunger entity

A shallow embedding of `src/lib/vpt/plunger/plunger.ts` (the Plunger entity of
the VPX pinball physics engine) together with models, taken from the
specification, of the collaborators the entity delegates to (the mover, the
hit object and the session facade, whose sources are not part of this tree).
Machine floats are embedded as exact rationals read from the decimal literals;
TypeScript `undefined` becomes `Option`, and a runtime `TypeError` (property
access on `undefined`) becomes the error branch of `Except`.
-/

/-- A material reference, as returned by the table by name lookup. -/
structure Material where
  mname : String
  deriving DecidableEq, Repr

/-- A texture reference, as returned by the table by name lookup. -/
structure Texture where
  tname : String
  deriving DecidableEq, Repr

/-- An opaque generated mesh. The mesh generator is an excluded collaborator;
a mesh records which part it renders and at which animation frame it was
generated, which is all the entity-level code observes. -/
structure Mesh where
  part : String
  frame : ℕ
  deriving DecidableEq, Repr

/-- The output of `PlungerMeshGenerator.generateMeshes`: up to three parts. -/
structure PlungerParts where
  rod : Option Mesh
  spring : Option Mesh
  flat : Option Mesh
  deriving DecidableEq, Repr

/-- The table collaborator, reduced to the three lookups `plunger.ts` makes:
`getMaterial`, `getTexture` and `getSurfaceHeight`. -/
structure Table where
  getMaterial : String → Material
  getTexture : String → Texture
  getSurfaceHeight : String → ℚ → ℚ → ℚ

/-- The physics handle obtained from the player (opaque at this level). -/
structure PlayerPhysics where
  ptag : String
  deriving DecidableEq, Repr

/-- The player collaborator; `plunger.ts` only calls `getPhysics()`. -/
structure Player where
  physics : PlayerPhysics
  deriving DecidableEq, Repr

def Player.getPhysics (p : Player) : PlayerPhysics := p.physics

/-- The configuration record (`PlungerData`), immutable after load. Fields
read by `plunger.ts` plus the geometry the mover is built from. -/
structure PlungerData where
  name : String
  szMaterial : String
  szImage : String
  szSurface : String
  isVisible : Bool
  autoPlunger : Bool
  speedPull : ℚ
  x : ℚ
  x2 : ℚ
  frameTop : ℚ
  frameBottom : ℚ
  restPos : ℚ
  springK : ℚ
  frictionCoeff : ℚ
  settleTol : ℚ
  deriving DecidableEq, Repr

def PlungerData.getName (d : PlungerData) : String := d.name

/-- The Dynamic State (`PlungerState`): the rod name and animation frame. -/
structure PlungerState where
  pname : String
  frame : ℕ
  deriving DecidableEq, Repr

/-- `PlungerState.claim(name, frame)`: constructs the pooled state record. -/
def PlungerState.claim (n : String) (f : ℕ) : PlungerState := ⟨n, f⟩

/-- The mover's firing-state machine of the spec:
`Idle → Retracting → (Fired) → Idle`. -/
inductive MoverMode where
  | idle
  | retracting
  | firing
  deriving DecidableEq, Repr

/-- Modelled from the spec: the state of `PlungerMover` (plunger-mover.ts is
not under src/). Rod tip lateral extent `x`, `x2`, longitudinal position
`pos` within travel bounds `[frameTop, frameBottom]` (per §8 `pullBack`
monotonically decreases `pos` toward the retracted bound, so the fully
retracted bound is `frameTop`), current speed, the rest position, the
tunable spring/friction/settle parameters, the pull rate last requested and
the firing-state machine mode. -/
structure MoverState where
  x : ℚ
  x2 : ℚ
  pos : ℚ
  speed : ℚ
  frameTop : ℚ
  frameBottom : ℚ
  restPos : ℚ
  springK : ℚ
  frictionCoeff : ℚ
  settleTol : ℚ
  pullSpeed : ℚ
  mode : MoverMode
  deriving DecidableEq, Repr

/-- Modelled from the spec: `pullBack(speed)` "begins retracting the rod
toward the maximum-pull position at the given rate; … No effect if already
fully retracted." -/
def MoverState.pullBack (m : MoverState) (speed : ℚ) : MoverState :=
  if m.pos ≤ m.frameTop then m
  else { m with mode := MoverMode.retracting, pullSpeed := speed }

/-- Modelled from the spec: `fire(arg?)` of `PlungerMover` (plunger-mover.ts
is not under src/). Per §4.1 ("transitions the rod from its current (or, for
auto-launch mode, from the maximum-retracted) position into a forward
release") and the comments inside `Plunger.fire` in plunger.ts ("triggering a
release from the maximum retracted position" for the argument `1.0`,
"trigger a release from the current position" for the omitted argument): a
provided argument selects the release start as the fraction of full
retraction (1 = the fully retracted bound `frameTop`), an omitted argument
releases from the current rod position. Firing cancels any retraction in
progress. -/
def MoverState.fire (m : MoverState) (arg : Option ℚ) : MoverState :=
  let start := match arg with
    | some s => m.frameBottom + s * (m.frameTop - m.frameBottom)
    | none => m.pos
  { m with pos := start, speed := 0, mode := MoverMode.firing }

/-- Clamp a candidate position to the travel bounds (hard stop). -/
def MoverState.clampPos (m : MoverState) (p : ℚ) : ℚ :=
  max m.frameTop (min m.frameBottom p)

/-- Modelled from the spec: `step(dt)` of `PlungerMover` (plunger-mover.ts is
not under src/). "While retracting, position moves linearly toward the pull
target at the pull rate. While firing, position integrates under spring force
(proportional to displacement from rest) minus friction, until the rod
returns to rest position and comes to rest (small velocity threshold), at
which point it re-enters an idle state"; "clamp pos to travel bounds every
step (hard stop, zero residual velocity component beyond the bound)". -/
def MoverState.step (m : MoverState) (dt : ℚ) : MoverState :=
  match m.mode with
  | MoverMode.idle => m
  | MoverMode.retracting =>
      let cand := m.pos - m.pullSpeed * dt
      { m with pos := m.clampPos cand }
  | MoverMode.firing =>
      let accel := -m.springK * (m.pos - m.restPos) - m.frictionCoeff * m.speed
      let v1 := m.speed + accel * dt
      let cand := m.pos + v1 * dt
      let clamped := m.clampPos cand
      let v2 := if clamped = cand then v1 else 0
      if |v2| < m.settleTol ∧ |clamped - m.restPos| < m.settleTol then
        { m with pos := clamped, speed := 0, mode := MoverMode.idle }
      else
        { m with pos := clamped, speed := v2 }

/-- Modelled from the spec: the mover created at session setup, initialised
from the configuration with the rod at rest and the machine idle. -/
def initMover (d : PlungerData) : MoverState :=
  { x := d.x, x2 := d.x2, pos := d.restPos, speed := 0,
    frameTop := d.frameTop, frameBottom := d.frameBottom,
    restPos := d.restPos, springK := d.springK,
    frictionCoeff := d.frictionCoeff, settleTol := d.settleTol,
    pullSpeed := 0, mode := MoverMode.idle }

/-- Modelled from the spec: the Collision Surface (`PlungerHit`, not under
src/) as far as plunger.ts observes it: it owns the mover object. -/
structure PlungerHit where
  mover : MoverState
  deriving DecidableEq, Repr

def PlungerHit.getMoverObject (h : PlungerHit) : MoverState := h.mover

/-- The event proxy created at session setup (`new EventProxy(this)`),
opaque except for the entity it was bound to. -/
structure EventProxy where
  ownerName : String
  deriving DecidableEq, Repr

/-- The scripting facade created at session setup (`new PlungerApi(...)`),
opaque except for the entity it was bound to. -/
structure PlungerApi where
  apiOwner : String
  deriving DecidableEq, Repr

/-- A JavaScript runtime error: the `TypeError` thrown by a property access
on `undefined` (the TS non-null assertion `!` is erased at runtime). -/
inductive JsError where
  | typeError
  deriving DecidableEq, Repr

/-- The Plunger entity: configuration, the mesh generator made at
construction (an excluded collaborator, abstracted as a function),
the Dynamic State, and the three optional session-scoped fields. -/
structure Plunger where
  data : PlungerData
  meshGen : ℕ → Table → PlungerParts
  state : PlungerState
  api : Option PlungerApi
  hit : Option PlungerHit
  events : Option EventProxy

def Plunger.getName (p : Plunger) : String := p.data.getName

def Plunger.getState (p : Plunger) : PlungerState := p.state

/-- The constructor: stores the data, builds the mesh generator from it
(abstracted as the `gen` argument), and claims the state with frame 0. -/
def mkPlunger (d : PlungerData) (gen : ℕ → Table → PlungerParts) : Plunger :=
  { data := d, meshGen := gen, state := PlungerState.claim d.getName 0,
    api := none, hit := none, events := none }

/-- `setupPlayer`: creates the event proxy, the hit object (with its mover)
and the api, in that order, and stores them in the session fields. -/
def Plunger.setupPlayer (p : Plunger) (pl : Player) (t : Table) : Plunger :=
  { p with
    events := some (EventProxy.mk p.getName),
    hit := some (PlungerHit.mk (initMover p.data)),
    api := some (PlungerApi.mk p.getName) }

def Plunger.isVisible (p : Plunger) (t : Table) : Bool := p.data.isVisible

def Plunger.isCollidable (p : Plunger) : Bool := true

/-- `getApi()`: `this.api!` — returns the field (possibly `undefined`),
never throws. -/
def Plunger.getApi (p : Plunger) : Except JsError (Option PlungerApi) :=
  Except.ok p.api

/-- `getMover()`: `this.hit!.getMoverObject()` — a property access on the
`hit` field, which throws `TypeError` when `hit` is `undefined`. -/
def Plunger.getMover (p : Plunger) : Except JsError MoverState :=
  match p.hit with
  | none => Except.error JsError.typeError
  | some h => Except.ok h.getMoverObject

/-- `getHitShapes()`: `[this.hit!]` — an array holding the field (possibly
`undefined`), never throws. -/
def Plunger.getHitShapes (p : Plunger) : Except JsError (List (Option PlungerHit)) :=
  Except.ok [p.hit]

/-- `getEventProxy()`: `this.events!` — returns the field (possibly
`undefined`), never throws. -/
def Plunger.getEventProxy (p : Plunger) : Except JsError (Option EventProxy) :=
  Except.ok p.events

/-- `pullBack()`: `this.getMover().pullBack(this.data.speedPull)`. -/
def Plunger.pullBack (p : Plunger) : Except JsError MoverState :=
  match p.getMover with
  | Except.error e => Except.error e
  | Except.ok m => Except.ok (m.pullBack p.data.speedPull)

/-- `fire()`: auto plunger fires the mover with `1.0`, the regular plunger
fires it with the argument omitted. -/
def Plunger.fire (p : Plunger) : Except JsError MoverState :=
  match p.getMover with
  | Except.error e => Except.error e
  | Except.ok m =>
      if p.data.autoPlunger then Except.ok (m.fire (some 1))
      else Except.ok (m.fire none)

def Plunger.getEventNames (p : Plunger) : List String :=
  ["Init", "Timer", "LimitEOS", "LimitBOS"]

/-- One rendered mesh entry: the mesh with its material and texture map. -/
structure MeshEntry where
  mesh : Mesh
  material : Material
  map : Texture
  deriving DecidableEq, Repr

/-- The record `getMeshes` returns: up to three named parts. -/
structure Meshes where
  rod : Option MeshEntry
  spring : Option MeshEntry
  flat : Option MeshEntry
  deriving DecidableEq, Repr

/-- `getMeshes(table)`: generates the meshes at frame 0, looks the material
and texture up by the configured names, and fills each present part. -/
def Plunger.getMeshes (p : Plunger) (t : Table) : Meshes :=
  let plunger := p.meshGen 0 t
  let material := t.getMaterial p.data.szMaterial
  let map := t.getTexture p.data.szImage
  { rod := plunger.rod.map (fun m => MeshEntry.mk m material map),
    spring := plunger.spring.map (fun m => MeshEntry.mk m material map),
    flat := plunger.flat.map (fun m => MeshEntry.mk m material map) }

/-- The render collaborator, reduced to what `applyState` calls:
`findInGroup`. `applyMeshToNode` is the observed effect, recorded as the
call list `applyState` produces. -/
structure RenderApi (NODE : Type) where
  findInGroup : NODE → String → Option NODE

/-- `applyState`: regenerates the meshes at the current state frame and
applies the rod mesh to the `rod` node and the spring mesh to the `spring`
node, each only when `findInGroup` finds such a node. The result is the
ordered list of `applyMeshToNode` calls (target node, mesh passed — the TS
`!` forwards a possibly-`undefined` mesh unchecked). -/
def Plunger.applyState {NODE : Type} (p : Plunger) (obj : NODE)
    (renderApi : RenderApi NODE) (t : Table) : List (NODE × Option Mesh) :=
  let mesh := p.meshGen p.state.frame t
  let rodCalls := match renderApi.findInGroup obj "rod" with
    | some rodObj => [(rodObj, mesh.rod)]
    | none => []
  let springCalls := match renderApi.findInGroup obj "spring" with
    | some springObj => [(springObj, mesh.spring)]
    | none => []
  rodCalls ++ springCalls

/-- A 3-vector. -/
structure Vertex3D where
  vx : ℚ
  vy : ℚ
  vz : ℚ
  deriving DecidableEq, Repr

/-- `getBallCreationPosition(table)`: x the midpoint of the tip extent, y the
rod position minus `25.0 + 0.01`, z the surface-height lookup at (x, y).
Calls `getMover()`, so it throws before session setup. -/
def Plunger.getBallCreationPosition (p : Plunger) (t : Table) : Except JsError Vertex3D :=
  match p.getMover with
  | Except.error e => Except.error e
  | Except.ok mover =>
      let x := (mover.x + mover.x2) * (1 / 2)
      let y := mover.pos - (25 + 1 / 100)
      let height := t.getSurfaceHeight p.data.szSurface x y
      Except.ok (Vertex3D.mk x y height)

/-- `getBallCreationVelocity(table)`: the zero vector. -/
def Plunger.getBallCreationVelocity (p : Plunger) (t : Table) : Vertex3D :=
  Vertex3D.mk 0 0 0

/-- C5: `getEventNames()` returns exactly `Init`, `Timer`, `LimitEOS`,
`LimitBOS`, in that order, for every plunger regardless of configuration. -/
theorem c5_event_names (p : Plunger) :
    p.getEventNames = ["Init", "Timer", "LimitEOS", "LimitBOS"] := rfl

/-- C8: `isCollidable()` returns `true` for every plunger, independent of the
visibility flag, which only `isVisible()` reports. -/
theorem c8_always_collidable (p : Plunger) (t : Table) :
    p.isCollidable = true ∧ p.isVisible t = p.data.isVisible :=
  ⟨rfl, rfl⟩

/-- C6: the Dynamic State is created at construction with frame 0 and `getState`
returns that same state field thereafter; session setup replaces only the
session fields, never the state, so every later `getState` yields it. -/
theorem c6_state_created_once (d : PlungerData) (gen : ℕ → Table → PlungerParts)
    (pl : Player) (t : Table) :
    (mkPlunger d gen).getState = PlungerState.claim d.getName 0 ∧
    (mkPlunger d gen).getState.frame = 0 ∧
    ((mkPlunger d gen).setupPlayer pl t).getState = (mkPlunger d gen).getState ∧
    ∀ p : Plunger, (p.setupPlayer pl t).getState = p.getState :=
  ⟨rfl, rfl, rfl, fun _ => rfl⟩

/-- Set the Dynamic State's animation frame (models the Mover writing the
frame between render samples). -/
def Plunger.setFrame (p : Plunger) (f : ℕ) : Plunger :=
  { p with state := { p.state with frame := f } }

/-- C7: `getMeshes` fills exactly the parts the generator produces at frame 0,
and every present entry carries the material and texture looked up from the
table by the configured `szMaterial` and `szImage` names, wrapping the
generated mesh of that part. -/
theorem c7_meshes_parts (p : Plunger) (t : Table) :
    ((p.getMeshes t).rod.isSome = (p.meshGen 0 t).rod.isSome ∧
     (p.getMeshes t).spring.isSome = (p.meshGen 0 t).spring.isSome ∧
     (p.getMeshes t).flat.isSome = (p.meshGen 0 t).flat.isSome) ∧
    (∀ e, (p.getMeshes t).rod = some e →
       e.material = t.getMaterial p.data.szMaterial ∧
       e.map = t.getTexture p.data.szImage ∧
       (p.meshGen 0 t).rod = some e.mesh) ∧
    (∀ e, (p.getMeshes t).spring = some e →
       e.material = t.getMaterial p.data.szMaterial ∧
       e.map = t.getTexture p.data.szImage ∧
       (p.meshGen 0 t).spring = some e.mesh) ∧
    (∀ e, (p.getMeshes t).flat = some e →
       e.material = t.getMaterial p.data.szMaterial ∧
       e.map = t.getTexture p.data.szImage ∧
       (p.meshGen 0 t).flat = some e.mesh) := by
  unfold Plunger.getMeshes
  refine ⟨⟨?_, ?_, ?_⟩, ?_, ?_, ?_⟩
  · cases hr : (p.meshGen 0 t).rod <;> simp [hr]
  · cases hr : (p.meshGen 0 t).spring <;> simp [hr]
  · cases hr : (p.meshGen 0 t).flat <;> simp [hr]
  · intro e he
    cases hr : (p.meshGen 0 t).rod with
    | none => simp [hr] at he
    | some msh => simp [hr] at he; exact ⟨by rw [← he], by rw [← he], by rw [← he]⟩
  · intro e he
    cases hr : (p.meshGen 0 t).spring with
    | none => simp [hr] at he
    | some msh => simp [hr] at he; exact ⟨by rw [← he], by rw [← he], by rw [← he]⟩
  · intro e he
    cases hr : (p.meshGen 0 t).flat with
    | none => simp [hr] at he
    | some msh => simp [hr] at he; exact ⟨by rw [← he], by rw [← he], by rw [← he]⟩

/-- A concrete configuration used to instantiate hypotheses. -/
def sampleData : PlungerData :=
  { name := "Plunger1", szMaterial := "PlungerMat", szImage := "PlungerTex",
    szSurface := "Floor", isVisible := true, autoPlunger := false,
    speedPull := 5, x := 0, x2 := 10, frameTop := 0, frameBottom := 80,
    restPos := 70, springK := 1, frictionCoeff := 0, settleTol := 1 / 100 }

/-- A concrete mesh generator producing all three parts, tagged by frame. -/
def sampleGen : ℕ → Table → PlungerParts :=
  fun f _ => ⟨some ⟨"rod", f⟩, some ⟨"spring", f⟩, some ⟨"flat", f⟩⟩

/-- A concrete table with simple lookups. -/
def sampleTable : Table :=
  ⟨fun s => ⟨s⟩, fun s => ⟨s⟩, fun _ x y => x + y⟩

/-- A concrete render group over `ℕ` nodes: node 1 is the rod, node 2 the
spring, node 3 the flat part. -/
def sampleRenderApi : RenderApi ℕ :=
  ⟨fun _ s => if s = "rod" then some 1 else if s = "spring" then some 2
    else if s = "flat" then some 3 else none⟩

/-- C7 witness: with all three parts generated, each entry of the returned
record carries the generated mesh and the looked-up material and texture. -/
theorem c7_witness :
    ((mkPlunger sampleData sampleGen).getMeshes sampleTable).rod =
      some ⟨⟨"rod", 0⟩, ⟨"PlungerMat"⟩, ⟨"PlungerTex"⟩⟩ ∧
    (sampleGen 0 sampleTable).rod = some ⟨"rod", 0⟩ := by
  have h := (c7_meshes_parts (mkPlunger sampleData sampleGen) sampleTable).2.1
      ⟨⟨"rod", 0⟩, ⟨"PlungerMat"⟩, ⟨"PlungerTex"⟩⟩ rfl
  exact ⟨rfl, h.2.2⟩

/-- C9: the `applyMeshToNode` calls `applyState` issues are exactly: the rod
mesh (generated at the current state frame) to the node found under `rod`,
and the spring mesh to the node found under `spring`, each only when such a
node exists; no call ever targets any other node and the flat mesh is never
applied. -/
theorem c9_apply_state_calls {NODE : Type} (p : Plunger) (obj : NODE)
    (renderApi : RenderApi NODE) (t : Table) (n : NODE) (m : Option Mesh) :
    (n, m) ∈ p.applyState obj renderApi t ↔
      (renderApi.findInGroup obj "rod" = some n ∧
        m = (p.meshGen p.state.frame t).rod) ∨
      (renderApi.findInGroup obj "spring" = some n ∧
        m = (p.meshGen p.state.frame t).spring) := by
  unfold Plunger.applyState
  cases hr : renderApi.findInGroup obj "rod" <;>
    cases hs : renderApi.findInGroup obj "spring" <;>
    simp [hr, hs, Prod.ext_iff, and_comm, eq_comm]

/-- C9 witness: in the sample render group the rod call is issued to node 1
with the frame-0 rod mesh. -/
theorem c9_witness :
    ((1 : ℕ), some (Mesh.mk "rod" 0)) ∈
      (mkPlunger sampleData sampleGen).applyState (0 : ℕ) sampleRenderApi sampleTable :=
  (c9_apply_state_calls (mkPlunger sampleData sampleGen) 0 sampleRenderApi
    sampleTable 1 (some (Mesh.mk "rod" 0))).mpr (Or.inl ⟨rfl, rfl⟩)

/-- C10: `getMeshes` is independent of the Dynamic State's frame (it always
generates the frame-0 pose), while `applyState` generates at the current
state frame: after setting the frame to `f`, the rod call carries the mesh
generated at `f`. -/
theorem c10_frame_usage {NODE : Type} (p : Plunger) (t : Table) (f : ℕ)
    (obj : NODE) (renderApi : RenderApi NODE) (n : NODE) :
    (p.setFrame f).getMeshes t = p.getMeshes t ∧
    (renderApi.findInGroup obj "rod" = some n →
      (n, (p.meshGen f t).rod) ∈ (p.setFrame f).applyState obj renderApi t) := by
  constructor
  · rfl
  · intro hn
    unfold Plunger.applyState Plunger.setFrame
    cases hs : renderApi.findInGroup obj "spring" <;> simp [hn, hs]

/-- C10 witness: raising the sample plunger's state frame to 7 leaves
`getMeshes` unchanged while `applyState` issues the frame-7 rod mesh. -/
theorem c10_witness :
    sampleRenderApi.findInGroup 0 "rod" = some 1 ∧
    ((mkPlunger sampleData sampleGen).setFrame 7).getMeshes sampleTable =
      (mkPlunger sampleData sampleGen).getMeshes sampleTable ∧
    ((1 : ℕ), (sampleGen 7 sampleTable).rod) ∈
      ((mkPlunger sampleData sampleGen).setFrame 7).applyState
        (0 : ℕ) sampleRenderApi sampleTable := by
  have h := c10_frame_usage (mkPlunger sampleData sampleGen) sampleTable 7
    (0 : ℕ) sampleRenderApi 1
  exact ⟨rfl, h.1, h.2 rfl⟩

/-- A concrete mover mid-travel: pos 40 strictly between the bounds 0/80. -/
def cexMover : MoverState :=
  { x := 0, x2 := 10, pos := 40, speed := 0, frameTop := 0, frameBottom := 80,
    restPos := 70, springK := 1, frictionCoeff := 0, settleTol := 1 / 100,
    pullSpeed := 0, mode := MoverMode.idle }

/-- A concrete regular (non-auto) plunger whose session is set up with the
mid-travel mover. -/
def cexRegularPlunger : Plunger :=
  { data := sampleData, meshGen := sampleGen,
    state := PlungerState.claim "Plunger1" 0, api := none,
    hit := some (PlungerHit.mk cexMover), events := none }

/-- A concrete auto plunger with the same mid-travel mover. -/
def sampleAutoPlunger : Plunger :=
  { data := { sampleData with autoPlunger := true }, meshGen := sampleGen,
    state := PlungerState.claim "Plunger1" 0, api := none,
    hit := some (PlungerHit.mk cexMover), events := none }

/-- C1 counterexample: with auto-launch disabled the release starts from the
current rod position (40), not from the fully retracted bound (0) — so
"an omitted strength means the release always starts from full-travel" fails
on this plunger. -/
theorem c1_counterexample :
    cexRegularPlunger.data.autoPlunger = false ∧
    cexRegularPlunger.fire = Except.ok (cexMover.fire none) ∧
    (cexMover.fire none).pos = 40 ∧
    cexMover.frameTop = 0 ∧
    (cexMover.fire none).pos ≠ cexMover.frameTop :=
  ⟨rfl, rfl, rfl, rfl, by decide⟩

/-- C1 (amended): with auto-launch enabled, `fire()` fires the mover with
strength 1.0 and the release starts at the fully retracted bound,
independent of the pre-fire rod position; with auto-launch disabled,
`fire()` fires the mover with the argument omitted and the release starts
from the current rod position. -/
theorem c1_fire_semantics (p : Plunger) (h : PlungerHit) (hh : p.hit = some h) :
    (p.data.autoPlunger = true →
      p.fire = Except.ok (h.mover.fire (some 1)) ∧
      (h.mover.fire (some 1)).pos = h.mover.frameTop) ∧
    (p.data.autoPlunger = false →
      p.fire = Except.ok (h.mover.fire none) ∧
      (h.mover.fire none).pos = h.mover.pos) := by
  constructor
  · intro ha
    refine ⟨?_, ?_⟩
    · unfold Plunger.fire Plunger.getMover
      rw [hh]
      simp [ha, PlungerHit.getMoverObject]
    · simp [MoverState.fire]
  · intro ha
    refine ⟨?_, rfl⟩
    unfold Plunger.fire Plunger.getMover
    rw [hh]
    simp [ha, PlungerHit.getMoverObject]

/-- C1 witness: the concrete auto plunger, fired mid-travel, releases from
the fully retracted bound. -/
theorem c1_witness :
    sampleAutoPlunger.fire = Except.ok (cexMover.fire (some 1)) ∧
    (cexMover.fire (some 1)).pos = cexMover.frameTop :=
  (c1_fire_semantics sampleAutoPlunger (PlungerHit.mk cexMover) rfl).1 rfl

/-- The externally invocable commands interleaved with simulation ticks. -/
inductive PlungerCmd where
  | pull
  | launch
  | tick (dt : ℚ)
  deriving DecidableEq, Repr

/-- One command against the mover, routed the way `plunger.ts` routes it:
`pullBack()` passes `data.speedPull`, `fire()` passes `1.0` exactly when
`autoPlunger` is set, a tick runs the mover's integrator. -/
def runCmd (d : PlungerData) (m : MoverState) : PlungerCmd → MoverState
  | PlungerCmd.pull => m.pullBack d.speedPull
  | PlungerCmd.launch => if d.autoPlunger then m.fire (some 1) else m.fire none
  | PlungerCmd.tick dt => m.step dt

/-- Run an arbitrary interleaving of commands and ticks. -/
def runTrace (d : PlungerData) (m : MoverState) (cs : List PlungerCmd) : MoverState :=
  cs.foldl (runCmd d) m

lemma clampPos_bounds (m : MoverState) (p : ℚ) (h : m.frameTop ≤ m.frameBottom) :
    m.frameTop ≤ m.clampPos p ∧ m.clampPos p ≤ m.frameBottom :=
  ⟨le_max_left _ _, max_le h (min_le_left _ _)⟩

lemma pullBack_projections (m : MoverState) (s : ℚ) :
    (m.pullBack s).frameTop = m.frameTop ∧
    (m.pullBack s).frameBottom = m.frameBottom ∧
    (m.pullBack s).pos = m.pos := by
  unfold MoverState.pullBack
  split <;> exact ⟨rfl, rfl, rfl⟩

lemma fire_frames (m : MoverState) (arg : Option ℚ) :
    (m.fire arg).frameTop = m.frameTop ∧ (m.fire arg).frameBottom = m.frameBottom := by
  cases arg <;> exact ⟨rfl, rfl⟩

lemma fire_pos_some (m : MoverState) (s : ℚ) :
    (m.fire (some s)).pos = m.frameBottom + s * (m.frameTop - m.frameBottom) := rfl

lemma fire_pos_none (m : MoverState) : (m.fire none).pos = m.pos := rfl

lemma step_frames (m : MoverState) (dt : ℚ) :
    (m.step dt).frameTop = m.frameTop ∧ (m.step dt).frameBottom = m.frameBottom := by
  unfold MoverState.step
  cases hm : m.mode with
  | idle => exact ⟨rfl, rfl⟩
  | retracting => exact ⟨rfl, rfl⟩
  | firing =>
      dsimp only
      split <;> split <;> exact ⟨rfl, rfl⟩

lemma step_pos_bounds (m : MoverState) (dt : ℚ) (hfb : m.frameTop ≤ m.frameBottom)
    (hlo : m.frameTop ≤ m.pos) (hhi : m.pos ≤ m.frameBottom) :
    m.frameTop ≤ (m.step dt).pos ∧ (m.step dt).pos ≤ m.frameBottom := by
  unfold MoverState.step
  cases hm : m.mode with
  | idle => exact ⟨hlo, hhi⟩
  | retracting => exact clampPos_bounds m _ hfb
  | firing =>
      dsimp only
      split <;> split <;> exact clampPos_bounds m _ hfb

lemma runCmd_bounds (d : PlungerData) (m : MoverState) (c : PlungerCmd)
    (hfb : m.frameTop ≤ m.frameBottom) (hlo : m.frameTop ≤ m.pos)
    (hhi : m.pos ≤ m.frameBottom) :
    (runCmd d m c).frameTop = m.frameTop ∧
    (runCmd d m c).frameBottom = m.frameBottom ∧
    m.frameTop ≤ (runCmd d m c).pos ∧ (runCmd d m c).pos ≤ m.frameBottom := by
  cases c with
  | pull =>
      obtain ⟨h1, h2, h3⟩ := pullBack_projections m d.speedPull
      exact ⟨h1, h2, by rw [runCmd, h3]; exact hlo, by rw [runCmd, h3]; exact hhi⟩
  | launch =>
      simp only [runCmd]
      split
      · obtain ⟨hf1, hf2⟩ := fire_frames m (some 1)
        refine ⟨hf1, hf2, ?_, ?_⟩
        · rw [fire_pos_some]; linarith
        · rw [fire_pos_some]; linarith
      · obtain ⟨hf1, hf2⟩ := fire_frames m none
        exact ⟨hf1, hf2, by rw [fire_pos_none]; exact hlo,
          by rw [fire_pos_none]; exact hhi⟩
  | tick dt =>
      obtain ⟨h1, h2⟩ := step_frames m dt
      obtain ⟨h3, h4⟩ := step_pos_bounds m dt hfb hlo hhi
      exact ⟨h1, h2, h3, h4⟩

/-- C2: over every interleaving of pull, fire and simulation ticks, the rod
position after every step stays within the travel bounds
`[frameTop, frameBottom]`: the mover clamps the position each step, whatever
the pull or fire forces. -/
theorem c2_clamp_invariant (d : PlungerData) (m : MoverState) (cs : List PlungerCmd)
    (hfb : m.frameTop ≤ m.frameBottom) (hlo : m.frameTop ≤ m.pos)
    (hhi : m.pos ≤ m.frameBottom) :
    m.frameTop ≤ (runTrace d m cs).pos ∧ (runTrace d m cs).pos ≤ m.frameBottom := by
  induction cs generalizing m with
  | nil => exact ⟨hlo, hhi⟩
  | cons c cs ih =>
      obtain ⟨ht, hb, h1, h2⟩ := runCmd_bounds d m c hfb hlo hhi
      have hfb2 : (runCmd d m c).frameTop ≤ (runCmd d m c).frameBottom := by
        rw [ht, hb]; exact hfb
      have hlo2 : (runCmd d m c).frameTop ≤ (runCmd d m c).pos := by
        rw [ht]; exact h1
      have hhi2 : (runCmd d m c).pos ≤ (runCmd d m c).frameBottom := by
        rw [hb]; exact h2
      have hrec := ih (runCmd d m c) hfb2 hlo2 hhi2
      rw [ht, hb] at hrec
      simpa [runTrace, List.foldl_cons] using hrec

/-- A trace with a pull, a fire and large ticks. -/
def c2trace : List PlungerCmd :=
  [PlungerCmd.pull, PlungerCmd.tick 1, PlungerCmd.launch, PlungerCmd.tick 1,
   PlungerCmd.tick 100]

/-- C2 witness: the concrete mid-travel mover run through the sample trace
stays within its bounds [0, 80]. -/
theorem c2_witness :
    (cexMover.frameTop ≤ cexMover.frameBottom ∧
     cexMover.frameTop ≤ cexMover.pos ∧ cexMover.pos ≤ cexMover.frameBottom) ∧
    cexMover.frameTop ≤ (runTrace sampleData cexMover c2trace).pos ∧
    (runTrace sampleData cexMover c2trace).pos ≤ cexMover.frameBottom :=
  ⟨⟨by decide, by decide, by decide⟩,
    c2_clamp_invariant sampleData cexMover c2trace (by decide) (by decide) (by decide)⟩

/-- C3: `getBallCreationPosition` returns x the midpoint of the rod tip's
lateral extent, y the rod position minus 25.01, z the table surface height at
that (x, y); `getBallCreationVelocity` returns the zero vector; and at tip
extents x = 0, x2 = 10 the spawn x is 5. -/
theorem c3_ball_creation (p : Plunger) (t : Table) (h : PlungerHit)
    (hh : p.hit = some h) :
    p.getBallCreationPosition t =
      Except.ok (Vertex3D.mk ((h.mover.x + h.mover.x2) * (1 / 2))
        (h.mover.pos - 2501 / 100)
        (t.getSurfaceHeight p.data.szSurface ((h.mover.x + h.mover.x2) * (1 / 2))
          (h.mover.pos - 2501 / 100))) ∧
    p.getBallCreationVelocity t = Vertex3D.mk 0 0 0 ∧
    (h.mover.x = 0 → h.mover.x2 = 10 →
      (h.mover.x + h.mover.x2) * (1 / 2) = 5) := by
  refine ⟨?_, rfl, ?_⟩
  · unfold Plunger.getBallCreationPosition Plunger.getMover
    rw [hh]
    norm_num [PlungerHit.getMoverObject]
  · intro h0 h10
    rw [h0, h10]
    norm_num

/-- C3 witness: the concrete plunger with tip extent [0, 10] and rod at 40
spawns the ball at x = 5, y = 40 − 25.01, with zero velocity. -/
theorem c3_witness :
    cexRegularPlunger.getBallCreationPosition sampleTable =
      Except.ok (Vertex3D.mk ((cexMover.x + cexMover.x2) * (1 / 2))
        (cexMover.pos - 2501 / 100)
        (sampleTable.getSurfaceHeight cexRegularPlunger.data.szSurface
          ((cexMover.x + cexMover.x2) * (1 / 2)) (cexMover.pos - 2501 / 100))) ∧
    cexRegularPlunger.getBallCreationVelocity sampleTable = Vertex3D.mk 0 0 0 ∧
    (cexMover.x + cexMover.x2) * (1 / 2) = 5 := by
  have h := c3_ball_creation cexRegularPlunger sampleTable (PlungerHit.mk cexMover) rfl
  exact ⟨h.1, h.2.1, h.2.2 rfl rfl⟩

/-- C4 counterexample: before `setupPlayer`, `getApi()`, `getEventProxy()`
and `getHitShapes()` do not raise: the TS non-null assertion is erased at
runtime, so they silently return `undefined` (resp. `[undefined]`). -/
theorem c4_counterexample :
    (mkPlunger sampleData sampleGen).getApi = Except.ok none ∧
    (mkPlunger sampleData sampleGen).getEventProxy = Except.ok none ∧
    (mkPlunger sampleData sampleGen).getHitShapes = Except.ok [none] :=
  ⟨rfl, rfl, rfl⟩

/-- C4 (amended): before `setupPlayer`, `getMover()`, `pullBack()` and
`fire()` throw a `TypeError` (they dereference the missing hit object), while
`getApi()`, `getEventProxy()` and `getHitShapes()` silently return
`undefined` values; after `setupPlayer` each operation acts on the mover,
the api, the event proxy and the hit object that setup created. -/
theorem c4_session_lifecycle (d : PlungerData) (gen : ℕ → Table → PlungerParts)
    (pl : Player) (t : Table) :
    (mkPlunger d gen).getMover = Except.error JsError.typeError ∧
    (mkPlunger d gen).pullBack = Except.error JsError.typeError ∧
    (mkPlunger d gen).fire = Except.error JsError.typeError ∧
    (mkPlunger d gen).getApi = Except.ok none ∧
    (mkPlunger d gen).getEventProxy = Except.ok none ∧
    (mkPlunger d gen).getHitShapes = Except.ok [none] ∧
    ((mkPlunger d gen).setupPlayer pl t).getMover = Except.ok (initMover d) ∧
    ((mkPlunger d gen).setupPlayer pl t).getApi =
      Except.ok (some (PlungerApi.mk d.getName)) ∧
    ((mkPlunger d gen).setupPlayer pl t).getEventProxy =
      Except.ok (some (EventProxy.mk d.getName)) ∧
    ((mkPlunger d gen).setupPlayer pl t).getHitShapes =
      Except.ok [some (PlungerHit.mk (initMover d))] ∧
    ((mkPlunger d gen).setupPlayer pl t).pullBack =
      Except.ok ((initMover d).pullBack d.speedPull) ∧
    ((mkPlunger d gen).setupPlayer pl t).fire =
      (if d.autoPlunger then Except.ok ((initMover d).fire (some 1))
       else Except.ok ((initMover d).fire none)) :=
  ⟨rfl, rfl, rfl, rfl, rfl, rfl, rfl, rfl, rfl, rfl, rfl, rfl⟩
